import Mathlib

/-!
Verification of the crash-analysis pipeline of `mcp-crashlytics-server`.

The TypeScript sources are embedded shallowly:

* `src/impact-analyzer.ts` — `ImpactAnalyzer.calculateImpactLevel`,
  `sortByImpactAndFrequency`, `generateFixSuggestionContext`,
  `isCommonException`, `getCommonExceptionAdvice`;
* `src/crash-processor.ts` — `CrashProcessor.processCrashRows`,
  `processCrashDetails`, `extractCrashContext`, `extractDeviceInfo`,
  `formatMemory`, `generateCrashTitle`, `processTrendAnalysis`,
  `aggregateDeviceStats`.

Modelling conventions:

* JS numbers are modelled by exact rationals (`ℚ`); the only place where
  IEEE-754 special values matter for the verified properties is a division
  by a non-positive baseline, which is captured exactly by the `JsNum`
  type (finite rational, signed infinity, or NaN).
* A JS `Map` is modelled by an insertion-ordered association list, a JS
  `Set<string>` by a duplicate-free insertion-ordered list.
* JS truthiness tests on strings are `≠ ""`, on numbers `≠ 0`.
* `Array.prototype.sort` is stable (ES2019); it is modelled by
  `List.mergeSort` on the comparator-induced total preorder.
* The regex-based stack-trace parser and the builtin `JSON.parse` are
  external JS primitives; the functions under verification receive them
  as parameters, since no verified property depends on their internals.
-/

/-- Severity classification, `ImpactLevel` of `types.ts`. -/
inductive ImpactLevel where
  | high
  | medium
  | low
deriving DecidableEq, Repr

/-- Result of a JS floating-point division: a finite value (kept exact as a
rational), a signed infinity, or NaN. -/
inductive JsNum where
  | fin (q : ℚ)
  | posInf
  | negInf
  | nan
deriving DecidableEq, Repr

/-- JS division `a / b`: finite quotient when `b ≠ 0`, otherwise a signed
infinity (or NaN for `0 / 0`). -/
def jsDiv (a b : ℚ) : JsNum :=
  if b ≠ 0 then .fin (a / b)
  else if 0 < a then .posInf
  else if a < 0 then .negInf
  else .nan

/-- JS multiplication of a division result by the positive constant 100. -/
def JsNum.mul100 : JsNum → JsNum
  | .fin q => .fin (q * 100)
  | .posInf => .posInf
  | .negInf => .negInf
  | .nan => .nan

/-- JS comparison `x > t` for a finite threshold `t` (false on NaN). -/
def JsNum.gtQ : JsNum → ℚ → Bool
  | .fin q, t => decide (t < q)
  | .posInf, _ => true
  | .negInf, _ => false
  | .nan, _ => false

/-- JS comparison `x >= t` for a finite threshold `t` (false on NaN). -/
def JsNum.geQ : JsNum → ℚ → Bool
  | .fin q, t => decide (t ≤ q)
  | .posInf, _ => true
  | .negInf, _ => false
  | .nan, _ => false

/-- Embedding of `ImpactAnalyzer.calculateImpactLevel`
(`src/impact-analyzer.ts:10-30`).  The configured baseline
`this.totalUsers` is passed as the first argument. -/
def calculateImpactLevel (totalUsers affectedUsers occurrences : ℚ)
    (isFatal : Bool) : ImpactLevel :=
  let userPercentage := (jsDiv affectedUsers totalUsers).mul100
  if isFatal then
    if decide (100 < affectedUsers) || userPercentage.gtQ 5 then .high
    else if decide (10 ≤ affectedUsers) || userPercentage.geQ 1 then .medium
    else .low
  else
    if decide (500 < affectedUsers) || userPercentage.gtQ 10 ||
        decide (1000 < occurrences) then .high
    else if decide (50 ≤ affectedUsers) || userPercentage.geQ 2 ||
        decide (100 ≤ occurrences) then .medium
    else .low

/-- Classification ladder as the specification words it (spec §4.2):
`pct = affectedUsers / totalUsers * 100`, with the division guarded as
`pct = 0` when `totalUsers <= 0`. -/
def specClassify (totalUsers affectedUsers occurrences : ℚ)
    (isFatal : Bool) : ImpactLevel :=
  let pct : ℚ := if totalUsers ≤ 0 then 0 else affectedUsers / totalUsers * 100
  if isFatal then
    if 100 < affectedUsers ∨ 5 < pct then .high
    else if 10 ≤ affectedUsers ∨ 1 ≤ pct then .medium
    else .low
  else
    if 500 < affectedUsers ∨ 10 < pct ∨ 1000 < occurrences then .high
    else if 50 ≤ affectedUsers ∨ 2 ≤ pct ∨ 100 ≤ occurrences then .medium
    else .low

/-- Crash summary record, `CrashSummary` of `types.ts`.  The `class` keyword
collision forces no renaming here; user counts are naturals. -/
structure CrashSummary where
  id : String
  timestamp : String
  impact : ImpactLevel
  affected_users : Nat
  occurrences : Nat
  app_version : String
  platform : String
  crash_message : String
  is_fatal : Bool
  title : String
deriving DecidableEq, Repr

/-- Weight table of `sortByImpactAndFrequency`: high 3, medium 2, low 1. -/
def impactWeight : ImpactLevel → Nat
  | .high => 3
  | .medium => 2
  | .low => 1

/-- Comparator-induced order of `ImpactAnalyzer.sortByImpactAndFrequency`
(`src/impact-analyzer.ts:36-45`): `a` may precede `b` iff the JS comparator
`(impactWeight[b] - impactWeight[a]) , (b.occurrences - a.occurrences)`
is non-positive at `(a, b)`. -/
def summaryLE (a b : CrashSummary) : Bool :=
  decide (impactWeight b.impact < impactWeight a.impact) ||
    (decide (impactWeight b.impact = impactWeight a.impact) &&
      decide (b.occurrences ≤ a.occurrences))

/-- Embedding of `ImpactAnalyzer.sortByImpactAndFrequency`: a stable sort by
the comparator order (ES2019 `Array.prototype.sort` is stable). -/
def sortByImpactAndFrequency (l : List CrashSummary) : List CrashSummary :=
  l.mergeSort summaryLE

/-- Two concrete summaries with equal impact and equal occurrence count. -/
def summaryA : CrashSummary :=
  ⟨"crash-1", "2024-01-01T00:00:00Z", .low, 1, 1, "1.0", "android",
    "msg a", true, "A"⟩

/-- Second concrete summary for the stability witness. -/
def summaryB : CrashSummary :=
  ⟨"crash-2", "2024-01-02T00:00:00Z", .low, 1, 1, "1.0", "ios",
    "msg b", false, "B"⟩

/-- Raw crash row, `BigQueryCrashRow` of `types.ts`.  The bigint byte counts
are naturals. -/
structure BigQueryCrashRow where
  crash_id : String
  timestamp : String
  event_name : String
  platform : String
  app_version : String
  bundle_id : String
  exception_type : String
  exception_message : String
  stack_trace : String
  is_fatal : Bool
  device_model : String
  os_version : String
  memory_available : Nat
  storage_available : Nat
  user_id : String
  session_id : String
  custom_keys : String
  breadcrumbs : String
deriving DecidableEq, Repr

/-- JS `s || d` for strings: the fallback replaces the empty string. -/
def jsOr (s d : String) : String := if s = "" then d else s

/-- Grouping key of `processCrashRows`
(`src/crash-processor.ts`): the template string
`` `${exception_type}-${exception_message}-${app_version}` ``. -/
def groupKey (row : BigQueryCrashRow) : String :=
  row.exception_type ++ "-" ++ row.exception_message ++ "-" ++ row.app_version

/-- Accumulated state of one crash group: representative (first-seen) row,
row count, and the distinct non-empty user ids in insertion order
(the JS `Set<string>`). -/
structure GroupAcc where
  row : BigQueryCrashRow
  count : Nat
  users : List String
deriving DecidableEq, Repr

/-- JS `if (row.user_id) existing.users.add(row.user_id)`: empty ids are
skipped, duplicates are not re-added. -/
def addUser (users : List String) (uid : String) : List String :=
  if uid = "" then users
  else if uid ∈ users then users
  else users ++ [uid]

/-- One step of the grouping loop of `processCrashRows`: a JS `Map` is an
insertion-ordered association list, existing keys are updated in place and
new keys are appended. -/
def updateCrashMap (m : List (String × GroupAcc)) (row : BigQueryCrashRow) :
    List (String × GroupAcc) :=
  match m with
  | [] => [(groupKey row, ⟨row, 1, addUser [] row.user_id⟩)]
  | (k, g) :: rest =>
    if k = groupKey row then
      (k, ⟨g.row, g.count + 1, addUser g.users row.user_id⟩) :: rest
    else
      (k, g) :: updateCrashMap rest row

/-- The grouping pass (`rows.forEach`) of `processCrashRows`. -/
def crashMap (rows : List BigQueryCrashRow) : List (String × GroupAcc) :=
  rows.foldl updateCrashMap []

/-- Embedding of `CrashProcessor.generateCrashTitle`: last dot-segment of the
exception type, message truncated to 47 characters plus an ellipsis when
longer than 50. -/
def generateCrashTitle (exceptionType message : String) : String :=
  let shortType :=
    match (exceptionType.splitOn ".").getLast? with
    | some s => if s = "" then exceptionType else s
    | none => exceptionType
  let shortMessage :=
    if message = "" then ""
    else if 50 < message.length then (message.take 47) ++ "..." else message
  if shortMessage = "" then shortType else shortType ++ ": " ++ shortMessage

/-- Summary built from one accumulated group by `processCrashRows`
(`src/crash-processor.ts:423-439`). -/
def mkSummary (totalUsers : ℚ) (g : GroupAcc) : CrashSummary :=
  let affectedUsers := g.users.length
  { id := g.row.crash_id
    timestamp := g.row.timestamp
    impact := calculateImpactLevel totalUsers affectedUsers g.count
      g.row.is_fatal
    affected_users := affectedUsers
    occurrences := g.count
    app_version := g.row.app_version
    platform := g.row.platform
    crash_message := jsOr g.row.exception_message "Unknown error"
    is_fatal := g.row.is_fatal
    title := generateCrashTitle g.row.exception_type g.row.exception_message }

/-- Embedding of `CrashProcessor.processCrashRows`
(`src/crash-processor.ts:402-442`). -/
def processCrashRows (totalUsers : ℚ) (rows : List BigQueryCrashRow) :
    List CrashSummary :=
  sortByImpactAndFrequency ((crashMap rows).map fun p => mkSummary totalUsers p.2)

/-- Concrete crash row used in witnesses. -/
def row0 : BigQueryCrashRow :=
  ⟨"c-100", "2024-02-01T10:00:00Z", "crash", "android", "2.1", "com.example",
    "java.lang.NullPointerException", "boom", "", true, "Pixel 8", "14",
    0, 0, "user-1", "sess-1", "", ""⟩

/-- Row whose exception type contains the separator character. -/
def rowX : BigQueryCrashRow :=
  ⟨"c-1", "2024-02-01T10:00:00Z", "crash", "android", "V", "com.example",
    "A-B", "C", "", true, "Pixel 8", "14", 0, 0, "u1", "s1", "", ""⟩

/-- Row with a different exception triple but the same concatenated key. -/
def rowY : BigQueryCrashRow :=
  ⟨"c-2", "2024-02-01T11:00:00Z", "crash", "android", "V", "com.example",
    "A", "B-C", "", true, "Pixel 8", "14", 0, 0, "u2", "s2", "", ""⟩

/-- First of two rows with an identical exception triple. -/
def rowZ1 : BigQueryCrashRow :=
  ⟨"c-3", "2024-02-01T10:00:00Z", "crash", "android", "1.0", "com.example",
    "E", "m", "", true, "Pixel 8", "14", 0, 0, "u1", "s1", "", ""⟩

/-- Second of two rows with an identical exception triple. -/
def rowZ2 : BigQueryCrashRow :=
  ⟨"c-4", "2024-02-01T11:00:00Z", "crash", "ios", "1.0", "com.example",
    "E", "m", "", false, "iPhone", "17", 0, 0, "u2", "s2", "", ""⟩

/-- JS `s.includes(sub)`: substring containment, decided on the underlying
character lists. -/
def jsIncludes (s sub : String) : Bool := decide (List.IsInfix sub.data s.data)

/-- JS `Array.prototype.join('. ')`. -/
def joinDot : List String → String
  | [] => ""
  | [a] => a
  | a :: b :: rest => a ++ ". " ++ joinDot (b :: rest)

/-- Parsed stack frame, `StackFrame` of `types.ts` (`class` is renamed `cls`
because it is a Lean keyword). -/
structure StackFrame where
  method : String
  cls : String
  file : String
  line : Nat
  column : Option Nat
  library : Option String
deriving DecidableEq, Repr

/-- Parsed stack trace, `StackTrace` of `types.ts`. -/
structure StackTrace where
  exception_type : String
  message : String
  frames : List StackFrame
deriving DecidableEq, Repr

/-- The fixed table of `ImpactAnalyzer.isCommonException`
(`src/impact-analyzer.ts:81-93`). -/
def commonExceptions : List String :=
  ["NullPointerException", "IndexOutOfBoundsException",
   "IllegalArgumentException", "ClassCastException",
   "ConcurrentModificationException", "OutOfMemoryError",
   "StackOverflowError"]

/-- Embedding of `ImpactAnalyzer.isCommonException`: substring containment
against the fixed table. -/
def isCommonException (exceptionType : String) : Bool :=
  commonExceptions.any fun t => jsIncludes exceptionType t

/-- The advice table of `ImpactAnalyzer.getCommonExceptionAdvice`
(`src/impact-analyzer.ts:95-113`), in `Object.entries` insertion order. -/
def adviceTable : List (String × String) :=
  [("NullPointerException",
    "Check for null values before accessing object methods or properties"),
   ("IndexOutOfBoundsException",
    "Verify array/list bounds before accessing elements"),
   ("IllegalArgumentException", "Validate method parameters before use"),
   ("ClassCastException", "Verify object types before casting"),
   ("ConcurrentModificationException",
    "Use thread-safe collections or synchronization when modifying collections across threads"),
   ("OutOfMemoryError",
    "Review memory usage, optimize data structures, or increase heap size"),
   ("StackOverflowError",
    "Check for infinite recursion or deeply nested method calls")]

/-- Embedding of `ImpactAnalyzer.getCommonExceptionAdvice`: first matching
key wins, generic advice otherwise. -/
def getCommonExceptionAdvice (exceptionType : String) : String :=
  match adviceTable.find? (fun p => jsIncludes exceptionType p.1) with
  | some p => p.2
  | none => "Review the stack trace to identify the root cause"

/-- Sentence list built by `ImpactAnalyzer.generateFixSuggestionContext`
(`src/impact-analyzer.ts:47-79`); optional parts follow the JS truthiness
of the top frame's fields. -/
def fixParts (exceptionType : String) (stackFrames : List StackFrame)
    (crashMessage appVersion : String) : List String :=
  let topFrame := stackFrames.head?
  ["The crash occurs in " ++
    (match topFrame with
     | some f => if f.cls = "" then "unknown class" else f.cls
     | none => "unknown class")]
  ++ (match topFrame with
      | some f => if f.method = "" then [] else ["in the " ++ f.method ++ " method"]
      | none => [])
  ++ (match topFrame with
      | some f =>
        if f.file = "" ∨ f.line = 0 then []
        else ["at " ++ f.file ++ ":" ++ toString f.line]
      | none => [])
  ++ ["when a " ++ exceptionType ++ " is thrown"]
  ++ (if crashMessage = "" then []
      else ["with the message: \"" ++ crashMessage ++ "\""])
  ++ (if isCommonException exceptionType then [getCommonExceptionAdvice exceptionType]
      else [])
  ++ (if appVersion = "" then []
      else ["This occurs in app version " ++ appVersion])

/-- Embedding of `ImpactAnalyzer.generateFixSuggestionContext`: the sentences
joined with `". "` plus a trailing period. -/
def generateFixSuggestionContext (exceptionType : String)
    (stackFrames : List StackFrame) (crashMessage appVersion : String) :
    String :=
  joinDot (fixParts exceptionType stackFrames crashMessage appVersion) ++ "."

/-- JS `Math.round`: round half towards positive infinity,
`Math.round(x) = ⌊x + 1/2⌋`. -/
def jsRound (q : ℚ) : ℤ := ⌊q + 1 / 2⌋

/-- One pre-aggregated statistics row consumed by `aggregateDeviceStats`
(`group_key`, `crash_count` of the warehouse query); counts are naturals. -/
structure StatRow where
  group_key : String
  crash_count : Nat
deriving DecidableEq, Repr

/-- One entry of the device breakdown returned by `aggregateDeviceStats`. -/
structure DeviceStat where
  device : String
  crash_count : Nat
  percentage : ℚ
deriving DecidableEq, Repr

/-- One step of the accumulation loop of `aggregateDeviceStats`: the device
map is an insertion-ordered association list, `totalCrashes` a running sum. -/
def deviceStep (acc : List (String × Nat) × Nat) (stat : StatRow) :
    List (String × Nat) × Nat :=
  let device := if stat.group_key = "" then "Unknown" else stat.group_key
  (updateDeviceMap acc.1 device stat.crash_count, acc.2 + stat.crash_count)
where
  updateDeviceMap : List (String × Nat) → String → Nat → List (String × Nat)
    | [], k, c => [(k, c)]
    | (k', v) :: rest, k, c =>
      if k' = k then (k', v + c) :: rest
      else (k', v) :: updateDeviceMap rest k c

/-- Percentage of the grand total:
`Math.round((crash_count / totalCrashes) * 10000) / 100`, `0` when the grand
total is zero. -/
def devPercentage (total count : Nat) : ℚ :=
  if 0 < total then (jsRound ((count : ℚ) / (total : ℚ) * 10000) : ℚ) / 100
  else 0

/-- Comparator-induced order of the `.sort((a, b) => b.crash_count -
a.crash_count)` call: descending crash count. -/
def devLE (a b : DeviceStat) : Bool := decide (b.crash_count ≤ a.crash_count)

/-- Embedding of `CrashProcessor.aggregateDeviceStats`
(`src/crash-processor.ts:677-696`): group by key summing counts, compute
each percentage against the full grand total, sort descending by count,
truncate to the top 10. -/
def aggregateDeviceStats (crashStats : List StatRow) : List DeviceStat :=
  let acc := crashStats.foldl deviceStep ([], 0)
  let entries := acc.1.map fun p => DeviceStat.mk p.1 p.2 (devPercentage acc.2 p.2)
  (entries.mergeSort devLE).take 10

/-- Six statistics rows for six distinct devices with one crash each. -/
def sixStats : List StatRow :=
  [⟨"a", 1⟩, ⟨"b", 1⟩, ⟨"c", 1⟩, ⟨"d", 1⟩, ⟨"e", 1⟩, ⟨"f", 1⟩]

/-- One pre-aggregated crash-free statistics row consumed by
`processTrendAnalysis`; `crashed_users` and `crash_free_rate` may be absent
in the query result. -/
structure CrashFreeRow where
  date : String
  crashed_users : Option Nat
  crash_free_rate : Option ℚ
deriving DecidableEq, Repr

/-- One trend bucket, `CrashTrend` of `types.ts`. -/
structure CrashTrend where
  date : String
  crash_count : Nat
  affected_users : Nat
  crash_free_rate : ℚ
deriving DecidableEq, Repr

/-- Trend report, `TrendAnalysis` of `types.ts`. -/
structure TrendAnalysis where
  time_range : String
  trends : List CrashTrend
  top_crashes : List CrashSummary
  most_affected_devices : List DeviceStat
  crash_free_percentage : ℚ
deriving DecidableEq, Repr

/-- JS `row.crash_free_rate || 100`: an absent rate defaults to 100, and so
does a present rate of `0`, because `0` is falsy. -/
def jsOrRate (r : Option ℚ) : ℚ :=
  match r with
  | none => 100
  | some q => if q = 0 then 100 else q

/-- JS `row.crashed_users || 0`. -/
def jsOrNat (r : Option Nat) : Nat := r.getD 0

/-- JS `Math.round(x * 100) / 100`: rounding to two decimal places. -/
def round2 (q : ℚ) : ℚ := (jsRound (q * 100) : ℚ) / 100

/-- Embedding of `CrashProcessor.processTrendAnalysis`
(`src/crash-processor.ts:649-675`). -/
def processTrendAnalysis (crashStats : List StatRow)
    (crashFreeCounts : List CrashFreeRow) (topCrashes : List CrashSummary)
    (timeRange : String) : TrendAnalysis :=
  let trends := crashFreeCounts.map fun r =>
    CrashTrend.mk r.date (jsOrNat r.crashed_users) (jsOrNat r.crashed_users)
      (jsOrRate r.crash_free_rate)
  let overallCrashFreeRate : ℚ :=
    if 0 < crashFreeCounts.length then
      (crashFreeCounts.foldl (fun s r => s + jsOrRate r.crash_free_rate) 0) /
        (crashFreeCounts.length : ℚ)
    else 100
  { time_range := timeRange
    trends := trends
    top_crashes := topCrashes.take 10
    most_affected_devices := aggregateDeviceStats crashStats
    crash_free_percentage := round2 overallCrashFreeRate }

/-- Mean of the per-day crash-free rates as the claim words it: only an
absent rate is defaulted to 100; a present rate — including 0 — contributes
its own value; 100 when the list is empty. -/
def specCrashFreeMean (crashFreeCounts : List CrashFreeRow) : ℚ :=
  if crashFreeCounts.length = 0 then 100
  else (crashFreeCounts.map fun r => r.crash_free_rate.getD 100).sum /
    (crashFreeCounts.length : ℚ)

/-- Crash-free row for 2024-01-01 with a supplied crash-free rate of 0. -/
def zeroRateRow : CrashFreeRow := ⟨"2024-01-01", some 0, some 0⟩

/-- Device snapshot, `DeviceInfo` of `types.ts`. -/
structure DeviceInfo where
  model : String
  os_version : String
  memory_available : String
  storage_available : String
  orientation : String
  battery_level : Option Nat
deriving DecidableEq, Repr

/-- Contextual metadata, `CrashContext` of `types.ts`; the `custom_keys`
mapping is an association list. -/
structure CrashContext where
  app_version : String
  os_version : String
  device : String
  memory_available : String
  breadcrumbs : List String
  custom_keys : List (String × String)
  session_id : String
  user_id : String
deriving DecidableEq, Repr

/-- Full detail payload, `CrashDetails` of `types.ts`. -/
structure CrashDetails where
  crash_summary : CrashSummary
  stack_trace : StackTrace
  context : CrashContext
  device_info : DeviceInfo
  suggested_fix_context : String
deriving DecidableEq, Repr

/-- Decimal rendering with one fractional digit, modelling `toFixed(1)` by
exact rational rounding. -/
def fmtFixed1 (q : ℚ) : String :=
  let n := jsRound (q * 10)
  toString (n / 10) ++ "." ++ toString (n % 10)

/-- Embedding of `CrashProcessor.formatMemory`: `"<N.1>GB"` at or above one
GiB, `"<N>MB"` below, `"Unknown"` for an absent or zero byte count. -/
def formatMemory (bytes : Nat) : String :=
  if bytes = 0 then "Unknown"
  else
    let gb : ℚ := (bytes : ℚ) / (1024 * 1024 * 1024)
    if 1 ≤ gb then fmtFixed1 gb ++ "GB"
    else toString (jsRound ((bytes : ℚ) / (1024 * 1024))) ++ "MB"

/-- Embedding of `CrashProcessor.extractDeviceInfo`. -/
def extractDeviceInfo (row : BigQueryCrashRow) : DeviceInfo :=
  { model := jsOr row.device_model "Unknown"
    os_version := jsOr row.os_version "Unknown"
    memory_available := formatMemory row.memory_available
    storage_available := formatMemory row.storage_available
    orientation := "Unknown"
    battery_level := none }

/-- Embedding of `CrashProcessor.extractCrashContext`
(`src/crash-processor.ts:596-626`).  The builtin `JSON.parse` is passed in
as the two decoders `pList` (for `breadcrumbs`) and `pObj` (for
`custom_keys`); a decoder returns `none` exactly when `JSON.parse` throws.
The embedding is a total function: a decode failure is mapped to the
documented fallback instead of propagating. -/
def extractCrashContext (pList : String → Option (List String))
    (pObj : String → Option (List (String × String)))
    (row : BigQueryCrashRow) : CrashContext :=
  let breadcrumbs :=
    if row.breadcrumbs = "" then []
    else match pList row.breadcrumbs with
      | some v => v
      | none => [row.breadcrumbs]
  let customKeys :=
    if row.custom_keys = "" then []
    else match pObj row.custom_keys with
      | some v => v
      | none => []
  { app_version := jsOr row.app_version "Unknown"
    os_version := jsOr row.os_version "Unknown"
    device := jsOr row.device_model "Unknown"
    memory_available := formatMemory row.memory_available
    breadcrumbs := breadcrumbs
    custom_keys := customKeys
    session_id := jsOr row.session_id "Unknown"
    user_id := row.user_id }

/-- Embedding of `CrashProcessor.processCrashDetails`
(`src/crash-processor.ts:444-479`).  The regex-based
`parseStackTrace` is an external primitive passed in as `parse`; the crash
summary fields do not depend on it. -/
def processCrashDetails (parse : String → StackTrace)
    (pList : String → Option (List String))
    (pObj : String → Option (List (String × String)))
    (totalUsers : ℚ) (row : BigQueryCrashRow) : CrashDetails :=
  let stackTrace := parse row.stack_trace
  let deviceInfo := extractDeviceInfo row
  let context := extractCrashContext pList pObj row
  let affectedUsers : Nat := 1
  let impact := calculateImpactLevel totalUsers affectedUsers 1 row.is_fatal
  { crash_summary :=
      { id := row.crash_id
        timestamp := row.timestamp
        impact := impact
        affected_users := 1
        occurrences := 1
        app_version := row.app_version
        platform := row.platform
        crash_message := jsOr row.exception_message "Unknown error"
        is_fatal := row.is_fatal
        title := generateCrashTitle row.exception_type row.exception_message }
    stack_trace := stackTrace
    context := context
    device_info := deviceInfo
    suggested_fix_context :=
      generateFixSuggestionContext row.exception_type stackTrace.frames
        row.exception_message row.app_version }

/-- Crash row with undecodable breadcrumbs and custom-keys text. -/
def rowBadJson : BigQueryCrashRow :=
  ⟨"c-9", "2024-02-01T10:00:00Z", "crash", "android", "1.0", "com.example",
    "E", "m", "", true, "Pixel 8", "14", 0, 0, "u1", "s1", "not json",
    "also not json"⟩

/-- C2: with a positive configured baseline, `calculateImpactLevel` returns
exactly the two threshold ladders of the specification, with
`pct = affectedUsers / totalUsers * 100`: fatal — high iff
`affectedUsers > 100 ∨ pct > 5`, else medium iff
`affectedUsers ≥ 10 ∨ pct ≥ 1`, else low; non-fatal — high iff
`affectedUsers > 500 ∨ pct > 10 ∨ occurrences > 1000`, else medium iff
`affectedUsers ≥ 50 ∨ pct ≥ 2 ∨ occurrences ≥ 100`, else low. -/
theorem calculateImpactLevel_matches_spec_ladder
    (T au occ : ℚ) (f : Bool) (hT : 0 < T) :
    calculateImpactLevel T au occ f = specClassify T au occ f := by
  have hne : T ≠ 0 := ne_of_gt hT
  have hnle : ¬ T ≤ 0 := not_le.mpr hT
  unfold calculateImpactLevel specClassify jsDiv
  simp only [hne, hnle, if_true, if_false, ite_true, ite_false, ne_eq,
    not_false_eq_true, JsNum.mul100, JsNum.gtQ, JsNum.geQ,
    Bool.or_eq_true, decide_eq_true_eq]
  cases f <;> split_ifs <;> first | rfl | (exfalso; tauto)

/-- C2 witness: the theorem applied at baseline 10000, 150 affected users,
3 occurrences, fatal. -/
theorem calculateImpactLevel_matches_spec_ladder_w :
    calculateImpactLevel 10000 150 3 true = specClassify 10000 150 3 true :=
  calculateImpactLevel_matches_spec_ladder 10000 150 3 true (by decide)

/-- C3 counterexample: with baseline 0 and one affected fatal user the code
divides by zero, the percentage becomes `+∞`, and the classification is
`high`; the specification's guarded classification (`pct = 0` when
`totalUsers ≤ 0`) gives `low`. -/
theorem calculateImpactLevel_zero_baseline_cex :
    calculateImpactLevel 0 1 1 true ≠ specClassify 0 1 1 true := by decide

/-- C3 amended: the division is not guarded.  For a non-positive baseline the
code still never errors and returns a well-defined level, and that level is
the absolute-threshold (guarded, `pct = 0`) classification in every case
except `totalUsers = 0` with `affectedUsers > 0`, where the percentage is
`+∞` and the result is `high`. -/
theorem calculateImpactLevel_nonpos_baseline
    (T au occ : ℚ) (f : Bool) (hau : 0 ≤ au) (hT : T ≤ 0) :
    calculateImpactLevel T au occ f =
      if T = 0 ∧ 0 < au then ImpactLevel.high
      else specClassify T au occ f := by
  rcases lt_or_eq_of_le hT with hTlt | hTeq
  · -- negative baseline: the finite percentage is non-positive, so every
    -- percentage comparison is false on both sides
    have hne : T ≠ 0 := ne_of_lt hTlt
    have hp : au / T * 100 ≤ 0 := by
      have := div_nonpos_of_nonneg_of_nonpos hau (le_of_lt hTlt)
      linarith
    have h5 : ¬ (5 : ℚ) < au / T * 100 := by linarith
    have h1 : ¬ (1 : ℚ) ≤ au / T * 100 := by linarith
    have h10 : ¬ (10 : ℚ) < au / T * 100 := by linarith
    have h2 : ¬ (2 : ℚ) ≤ au / T * 100 := by linarith
    rw [if_neg (show ¬ (T = 0 ∧ 0 < au) from fun h => hne h.1)]
    have hjs : jsDiv au T = .fin (au / T) := by simp [jsDiv, hne]
    unfold calculateImpactLevel specClassify
    rw [hjs, if_pos hT]
    simp only [JsNum.mul100, JsNum.gtQ, JsNum.geQ, Bool.or_eq_true,
      decide_eq_true_eq]
    cases f <;>
      simp only [Bool.false_eq_true, if_true, if_false, ite_true, ite_false,
        h5, h1, h10, h2, or_false, false_or] <;>
      split_ifs <;> first
        | rfl
        | (exfalso; simp only [not_or, not_lt, not_le] at *
           casesm* _ ∨ _, _ ∧ _ <;> first | exact ‹False› | linarith)
  · -- zero baseline
    subst hTeq
    rcases eq_or_lt_of_le hau with hau0 | haupos
    · -- 0 / 0 is NaN: every percentage comparison is false, as with pct = 0
      have hz : au = 0 := hau0.symm
      subst hz
      rw [if_neg (show ¬ ((0 : ℚ) = 0 ∧ (0 : ℚ) < 0) from fun h => by
        exact absurd h.2 (lt_irrefl 0))]
      have hjs : jsDiv 0 0 = .nan := by simp [jsDiv]
      unfold calculateImpactLevel specClassify
      rw [hjs, if_pos le_rfl]
      simp only [JsNum.mul100, JsNum.gtQ, JsNum.geQ, Bool.or_eq_true,
        decide_eq_true_eq, Bool.false_eq_true]
      cases f <;>
        simp only [Bool.false_eq_true, if_true, if_false, ite_true, ite_false] <;>
        split_ifs <;> first
          | rfl
          | (exfalso; simp only [not_or, not_lt, not_le] at *
             casesm* _ ∨ _, _ ∧ _ <;> first | exact ‹False› | linarith)
    · -- au / 0 with au > 0 is +∞: both ladders short-circuit to high
      have hjs : jsDiv au 0 = JsNum.posInf := by
        simp [jsDiv, haupos, not_lt.mpr hau]
      rw [if_pos ⟨rfl, haupos⟩]
      unfold calculateImpactLevel
      rw [hjs]
      cases f <;> simp [JsNum.mul100, JsNum.gtQ, JsNum.geQ]

/-- C3 witness: the amended theorem applied at baseline −5, 3 affected
users, 7 occurrences, fatal. -/
theorem calculateImpactLevel_nonpos_baseline_w :
    calculateImpactLevel (-5) 3 7 true =
      if (-5 : ℚ) = 0 ∧ (0 : ℚ) < 3 then ImpactLevel.high
      else specClassify (-5) 3 7 true :=
  calculateImpactLevel_nonpos_baseline (-5) 3 7 true (by decide) (by decide)

theorem summaryLE_trans (a b c : CrashSummary) :
    summaryLE a b → summaryLE b c → summaryLE a c := by
  simp only [summaryLE, Bool.or_eq_true, Bool.and_eq_true, decide_eq_true_eq]
  intro h1 h2
  rcases h1 with h1 | ⟨h1e, h1o⟩ <;> rcases h2 with h2 | ⟨h2e, h2o⟩
  · exact Or.inl (lt_trans h2 h1)
  · exact Or.inl (by omega)
  · exact Or.inl (by omega)
  · exact Or.inr ⟨by omega, le_trans h2o h1o⟩

theorem summaryLE_total (a b : CrashSummary) :
    summaryLE a b || summaryLE b a := by
  simp only [summaryLE, Bool.or_eq_true, Bool.and_eq_true, decide_eq_true_eq]
  omega

/-- C8: `sortByImpactAndFrequency` returns a permutation of its input, the
output is pairwise ordered by the comparator order (impact weight descending,
ties by occurrence count descending — so every `high` precedes every
`medium`, which precedes every `low`), and the sort is stable: two summaries
with equal impact and equal occurrence count that occur in this order in the
input still occur in this order in the output. -/
theorem sortByImpactAndFrequency_spec (l : List CrashSummary) :
    List.Perm (sortByImpactAndFrequency l) l ∧
    (sortByImpactAndFrequency l).Pairwise (fun a b => summaryLE a b = true) ∧
    ∀ x y : CrashSummary, x.impact = y.impact →
      x.occurrences = y.occurrences → List.Sublist [x, y] l →
      List.Sublist [x, y] (sortByImpactAndFrequency l) := by
  refine ⟨List.mergeSort_perm l summaryLE,
    List.sorted_mergeSort summaryLE_trans summaryLE_total l, ?_⟩
  intro x y hi ho hsub
  exact List.pair_sublist_mergeSort summaryLE_trans summaryLE_total
    (by simp [summaryLE, hi, ho]) hsub

/-- C8 witness: the stability clause applied to two concrete summaries with
equal keys. -/
theorem sortByImpactAndFrequency_spec_w :
    List.Sublist [summaryA, summaryB]
      (sortByImpactAndFrequency [summaryA, summaryB]) :=
  (sortByImpactAndFrequency_spec [summaryA, summaryB]).2.2 summaryA summaryB
    (by decide) (by decide) (List.Sublist.refl _)

theorem addUser_length_le (users : List String) (uid : String) :
    (addUser users uid).length ≤ users.length + 1 := by
  unfold addUser
  split_ifs <;> simp

theorem updateCrashMap_inv (m : List (String × GroupAcc))
    (row : BigQueryCrashRow)
    (h : ∀ p ∈ m, (p.2.users.length ≤ p.2.count)) :
    ∀ p ∈ updateCrashMap m row, p.2.users.length ≤ p.2.count := by
  induction m with
  | nil =>
    intro p hp
    simp only [updateCrashMap, List.mem_singleton] at hp
    subst hp
    simpa using addUser_length_le [] row.user_id
  | cons hd tl ih =>
    intro p hp
    obtain ⟨k, g⟩ := hd
    simp only [updateCrashMap] at hp
    by_cases hk : k = groupKey row
    · rw [if_pos hk] at hp
      rcases List.mem_cons.mp hp with hp | hp
      · subst hp
        have := h (k, g) (List.mem_cons_self _ _)
        have := addUser_length_le g.users row.user_id
        simp only at *
        omega
      · exact h p (List.mem_cons_of_mem _ hp)
    · rw [if_neg hk] at hp
      rcases List.mem_cons.mp hp with hp | hp
      · subst hp
        exact h (k, g) (List.mem_cons_self _ _)
      · exact ih (fun q hq => h q (List.mem_cons_of_mem _ hq)) p hp

theorem crashMap_inv (rows : List BigQueryCrashRow) :
    ∀ p ∈ crashMap rows, p.2.users.length ≤ p.2.count := by
  suffices h : ∀ (m : List (String × GroupAcc)),
      (∀ p ∈ m, p.2.users.length ≤ p.2.count) →
      ∀ p ∈ rows.foldl updateCrashMap m, p.2.users.length ≤ p.2.count by
    exact h [] (by simp)
  induction rows with
  | nil => intro m hm; simpa using hm
  | cons r rs ih =>
    intro m hm
    exact ih _ (updateCrashMap_inv m r hm)

/-- C1: every summary produced by `processCrashRows` satisfies
`affected_users ≤ occurrences` — the number of distinct non-empty user ids
accumulated in a group never exceeds the number of rows accumulated in it. -/
theorem processCrashRows_affected_le_occurrences
    (totalUsers : ℚ) (rows : List BigQueryCrashRow) (s : CrashSummary)
    (hs : s ∈ processCrashRows totalUsers rows) :
    s.affected_users ≤ s.occurrences := by
  unfold processCrashRows sortByImpactAndFrequency at hs
  rw [List.mem_mergeSort] at hs
  obtain ⟨p, hp, rfl⟩ := List.mem_map.mp hs
  simpa [mkSummary] using crashMap_inv rows p hp

/-- C1 witness: the theorem applied to the singleton row list and the summary
it produces. -/
theorem processCrashRows_affected_le_occurrences_w :
    (mkSummary 10000 ⟨row0, 1, addUser [] row0.user_id⟩).affected_users ≤
      (mkSummary 10000 ⟨row0, 1, addUser [] row0.user_id⟩).occurrences :=
  processCrashRows_affected_le_occurrences 10000 [row0] _ (by
    unfold processCrashRows sortByImpactAndFrequency
    rw [List.mem_mergeSort]
    simp [crashMap, updateCrashMap])

/-- C4 counterexample: the separator `-` can occur in the values, so two rows
whose (type, message, version) triples differ — `("A-B", "C", "V")` versus
`("A", "B-C", "V")` — are merged into a single crash group. -/
theorem processCrashRows_grouping_cex :
    (processCrashRows 10000 [rowX, rowY]).length = 1 ∧
      rowX.exception_type ≠ rowY.exception_type := by
  constructor
  · unfold processCrashRows sortByImpactAndFrequency
    rw [List.length_mergeSort, List.length_map]
    decide
  · decide

/-- C4 amended: two rows are accumulated into the same crash group iff their
concatenated keys `type ++ "-" ++ message ++ "-" ++ version` are equal.
Rows with pairwise-equal triples always share a group, but since `-` may
occur inside the values, distinct triples with colliding concatenations are
also merged. -/
theorem processCrashRows_grouping (T : ℚ) (r1 r2 : BigQueryCrashRow) :
    ((processCrashRows T [r1, r2]).length = 1 ↔ groupKey r1 = groupKey r2) ∧
    (r1.exception_type = r2.exception_type →
      r1.exception_message = r2.exception_message →
      r1.app_version = r2.app_version → groupKey r1 = groupKey r2) := by
  constructor
  · unfold processCrashRows sortByImpactAndFrequency
    rw [List.length_mergeSort, List.length_map]
    show (crashMap [r1, r2]).length = 1 ↔ _
    unfold crashMap
    simp only [List.foldl]
    by_cases h : groupKey r1 = groupKey r2
    · simp [updateCrashMap, h]
    · simp [updateCrashMap, h]
  · intro h1 h2 h3
    unfold groupKey
    rw [h1, h2, h3]

/-- C4 witness: the amended theorem applied to two rows with equal triples:
their keys coincide and the two rows produce a single group. -/
theorem processCrashRows_grouping_w :
    groupKey rowZ1 = groupKey rowZ2 ∧
      (processCrashRows 10000 [rowZ1, rowZ2]).length = 1 := by
  have h := processCrashRows_grouping 10000 rowZ1 rowZ2
  have hk := h.2 rfl rfl rfl
  exact ⟨hk, h.1.mpr hk⟩

theorem mem_joinDot_isInfix :
    ∀ (l : List String) (x : String), x ∈ l →
      List.IsInfix x.data (joinDot l).data
  | [a], x, h => by
    simp only [List.mem_singleton] at h
    subst h
    exact List.infix_refl _
  | a :: b :: rest, x, h => by
    rcases List.mem_cons.mp h with h | h
    · subst h
      show List.IsInfix x.data ((x ++ ". ") ++ joinDot (b :: rest)).data
      simp only [String.data_append]
      exact ((List.prefix_append x.data _).trans
        (List.prefix_append _ _)).isInfix
    · have ih := mem_joinDot_isInfix (b :: rest) x h
      show List.IsInfix x.data ((a ++ ". ") ++ joinDot (b :: rest)).data
      simp only [String.data_append]
      exact ih.trans (List.suffix_append _ _).isInfix

/-- C6 amended: whenever the exception type contains one of the seven
well-known substrings, the generated fix-suggestion text contains the canned
advice of the first matching key.  When no key matches, no advice sentence is
appended at all — the generic "review the stack trace" text of
`getCommonExceptionAdvice` is unreachable from `generateFixSuggestionContext`
(its guard `isCommonException` checks exactly the advice table's keys), as
the counterexample shows. -/
theorem generateFixSuggestionContext_contains_advice
    (exceptionType : String) (stackFrames : List StackFrame)
    (crashMessage appVersion : String)
    (h : isCommonException exceptionType = true) :
    jsIncludes
      (generateFixSuggestionContext exceptionType stackFrames crashMessage
        appVersion)
      (getCommonExceptionAdvice exceptionType) = true := by
  unfold jsIncludes
  rw [decide_eq_true_eq]
  have hmem : getCommonExceptionAdvice exceptionType ∈
      fixParts exceptionType stackFrames crashMessage appVersion := by
    unfold fixParts
    simp [h]
  have hinf := mem_joinDot_isInfix _ _ hmem
  unfold generateFixSuggestionContext
  simp only [String.data_append]
  exact hinf.trans (List.prefix_append _ _).isInfix

/-- C6 witness: the amended theorem applied to a `NullPointerException` with
no frames, message, or version. -/
theorem generateFixSuggestionContext_contains_advice_w :
    jsIncludes (generateFixSuggestionContext "NullPointerException" [] "" "")
      (getCommonExceptionAdvice "NullPointerException") = true :=
  generateFixSuggestionContext_contains_advice "NullPointerException" [] "" ""
    (by decide)

/-- C6 counterexample: for an exception type matching none of the seven keys
the generated text does not contain the generic "review the stack trace"
advice — contrary to the claim, no advice sentence is emitted at all. -/
theorem generateFixSuggestionContext_no_generic_advice_cex :
    jsIncludes (generateFixSuggestionContext "MysteryFailure" [] "" "")
      "Review the stack trace to identify the root cause" = false := by
  decide

theorem updateDeviceMap_sum (m : List (String × Nat)) (k : String) (c : Nat) :
    ((deviceStep.updateDeviceMap m k c).map Prod.snd).sum =
      (m.map Prod.snd).sum + c := by
  induction m with
  | nil => simp [deviceStep.updateDeviceMap]
  | cons hd tl ih =>
    obtain ⟨k', v⟩ := hd
    by_cases h : k' = k <;>
      simp [deviceStep.updateDeviceMap, h, ih] <;> omega

theorem deviceFold_total (crashStats : List StatRow) :
    ∀ (acc : List (String × Nat) × Nat),
      acc.2 = ((acc.1.map Prod.snd).sum : Nat) →
      (crashStats.foldl deviceStep acc).2 =
        (((crashStats.foldl deviceStep acc).1.map Prod.snd).sum : Nat) := by
  induction crashStats with
  | nil => intro acc h; simpa using h
  | cons s rest ih =>
    intro acc h
    apply ih
    simp only [deviceStep, updateDeviceMap_sum]
    omega

theorem sum_map_add_const {α : Type} (l : List α) (f : α → ℚ) (c : ℚ) :
    (l.map fun x => f x + c).sum = (l.map f).sum + l.length * c := by
  induction l with
  | nil => simp
  | cons a t ih =>
    simp only [List.map_cons, List.sum_cons, ih, List.length_cons]
    push_cast
    ring

theorem sum_map_natCast_mul {α : Type} (l : List α) (g : α → ℕ) (k : ℚ) :
    (l.map fun x => (g x : ℚ) * k).sum = (((l.map g).sum : ℕ) : ℚ) * k := by
  induction l with
  | nil => simp
  | cons a t ih =>
    simp only [List.map_cons, List.sum_cons, ih]
    push_cast
    ring

theorem devPercentage_le (total c : Nat) (ht : 0 < total) :
    devPercentage total c ≤ (c : ℚ) * 100 / (total : ℚ) + 1 / 200 := by
  unfold devPercentage jsRound
  rw [if_pos ht]
  have h : ((⌊(c : ℚ) / (total : ℚ) * 10000 + 1 / 2⌋ : ℤ) : ℚ) ≤
      (c : ℚ) / (total : ℚ) * 10000 + 1 / 2 := Int.floor_le _
  have h2 : ((⌊(c : ℚ) / (total : ℚ) * 10000 + 1 / 2⌋ : ℤ) : ℚ) / 100 ≤
      ((c : ℚ) / (total : ℚ) * 10000 + 1 / 2) / 100 :=
    (div_le_div_iff_of_pos_right (by norm_num)).mpr h
  calc ((⌊(c : ℚ) / (total : ℚ) * 10000 + 1 / 2⌋ : ℤ) : ℚ) / 100
      ≤ ((c : ℚ) / (total : ℚ) * 10000 + 1 / 2) / 100 := h2
    _ = (c : ℚ) * 100 / (total : ℚ) + 1 / 200 := by ring

theorem devPercentage_nonneg (total c : Nat) : 0 ≤ devPercentage total c := by
  unfold devPercentage jsRound
  split_ifs with h
  · apply div_nonneg _ (by norm_num)
    have hx : ((0 : ℤ) : ℚ) ≤ (c : ℚ) / (total : ℚ) * 10000 + 1 / 2 := by
      positivity
    exact_mod_cast Int.cast_le.mpr (Int.le_floor.mpr hx)
  · exact le_refl 0

theorem devLE_trans (a b c : DeviceStat) :
    devLE a b → devLE b c → devLE a c := by
  simp only [devLE, decide_eq_true_eq]
  omega

theorem devLE_total (a b : DeviceStat) : devLE a b || devLE b a := by
  simp only [devLE, Bool.or_eq_true, decide_eq_true_eq]
  omega

/-- C7 amended: `aggregateDeviceStats` returns at most 10 entries, ordered by
descending crash count, whose percentages — each computed against the full
unsliced grand total and rounded to 2 decimals — sum to at most
`100 + 1/200` per returned entry (i.e. at most `100.05`); the rounding step
can push the sum slightly above the claimed bound of exactly 100. -/
theorem aggregateDeviceStats_spec (crashStats : List StatRow) :
    (aggregateDeviceStats crashStats).length ≤ 10 ∧
    (aggregateDeviceStats crashStats).Pairwise
      (fun a b => b.crash_count ≤ a.crash_count) ∧
    ((aggregateDeviceStats crashStats).map DeviceStat.percentage).sum ≤
      100 + ((aggregateDeviceStats crashStats).length : ℚ) / 200 := by
  set acc := crashStats.foldl deviceStep ([], 0) with hacc
  set entries :=
    acc.1.map (fun p => DeviceStat.mk p.1 p.2 (devPercentage acc.2 p.2))
    with hent
  set L := entries.mergeSort devLE with hL
  have hout : aggregateDeviceStats crashStats = L.take 10 := rfl
  have htot : acc.2 = ((acc.1.map Prod.snd).sum : Nat) :=
    deviceFold_total crashStats ([], 0) (by simp)
  have hmem_entries : ∀ e ∈ L.take 10, e ∈ entries := by
    intro e he
    exact List.mem_mergeSort.mp (List.mem_of_mem_take he)
  have hpct : ∀ e ∈ entries, e.percentage = devPercentage acc.2 e.crash_count := by
    intro e he
    rw [hent] at he
    obtain ⟨p, _, rfl⟩ := List.mem_map.mp he
    rfl
  refine ⟨?_, ?_, ?_⟩
  · rw [hout]
    simp only [List.length_take]
    exact Nat.min_le_left 10 L.length
  · rw [hout]
    have hp : L.Pairwise (fun a b => devLE a b = true) :=
      List.sorted_mergeSort devLE_trans devLE_total entries
    exact (hp.sublist (List.take_sublist 10 L)).imp
      (fun h => by simpa [devLE] using h)
  · rw [hout]
    by_cases ht : 0 < acc.2
    · -- positive grand total
      have htQ : ((acc.2 : ℚ)) ≠ 0 := by
        exact_mod_cast Nat.pos_iff_ne_zero.mp ht
      have step1 : ((L.take 10).map DeviceStat.percentage).sum ≤
          ((L.take 10).map
            (fun e => (e.crash_count : ℚ) * 100 / (acc.2 : ℚ) + 1 / 200)).sum := by
        apply List.sum_le_sum
        intro e he
        rw [hpct e (hmem_entries e he)]
        exact devPercentage_le acc.2 e.crash_count ht
      have step2 : ((L.take 10).map
          (fun e => (e.crash_count : ℚ) * 100 / (acc.2 : ℚ) + 1 / 200)).sum =
          ((L.take 10).map
            (fun e => (e.crash_count : ℚ) * 100 / (acc.2 : ℚ))).sum +
            (L.take 10).length * (1 / 200) :=
        sum_map_add_const _ _ _
      have step3 : ((L.take 10).map
          (fun e => (e.crash_count : ℚ) * 100 / (acc.2 : ℚ))).sum ≤
          (L.map (fun e => (e.crash_count : ℚ) * 100 / (acc.2 : ℚ))).sum := by
        apply List.Sublist.sum_le_sum
          (List.Sublist.map _ (List.take_sublist 10 L))
        intro x hx
        obtain ⟨e, _, rfl⟩ := List.mem_map.mp hx
        positivity
      have step4 : (L.map
          (fun e => (e.crash_count : ℚ) * 100 / (acc.2 : ℚ))).sum =
          (entries.map (fun e => (e.crash_count : ℚ) * 100 / (acc.2 : ℚ))).sum :=
        ((List.mergeSort_perm entries devLE).map _).sum_eq
      have step5 : (entries.map
          (fun e => (e.crash_count : ℚ) * 100 / (acc.2 : ℚ))).sum = 100 := by
        rw [hent, List.map_map]
        have : ((fun e : DeviceStat => (e.crash_count : ℚ) * 100 / (acc.2 : ℚ)) ∘
            (fun p : String × Nat =>
              DeviceStat.mk p.1 p.2 (devPercentage acc.2 p.2))) =
            fun p : String × Nat => ((p.2 : ℚ)) * (100 / (acc.2 : ℚ)) := by
          funext p
          simp [mul_div_assoc]
        rw [this, sum_map_natCast_mul, ← htot, mul_comm, div_mul_cancel₀ _ htQ]
      have hlen200 : ((L.take 10).length : ℚ) * (1 / 200) =
          ((L.take 10).length : ℚ) / 200 := by ring
      linarith [step1, step2, step3, step4.le, step4.ge, step5.le, step5.ge]
    · -- zero grand total: every percentage is 0
      have hz : ((L.take 10).map DeviceStat.percentage).sum = 0 := by
        apply List.sum_eq_zero
        intro x hx
        obtain ⟨e, he, rfl⟩ := List.mem_map.mp hx
        rw [hpct e (hmem_entries e he)]
        unfold devPercentage
        rw [if_neg ht]
      rw [hz]
      positivity

/-- C7 counterexample: with six devices of one crash each, every rounded
percentage is `16.67`, so the returned slice's percentages sum to `100.02`,
strictly above 100. -/
theorem aggregateDeviceStats_sum_cex :
    ¬ (((aggregateDeviceStats sixStats).map DeviceStat.percentage).sum ≤ 100) := by
  have hout : aggregateDeviceStats sixStats =
      (List.mergeSort ((sixStats.foldl deviceStep ([], 0)).1.map
        (fun p => DeviceStat.mk p.1 p.2
          (devPercentage (sixStats.foldl deviceStep ([], 0)).2 p.2)))
        devLE).take 10 := rfl
  rw [hout, List.take_of_length_le (by
      simp only [List.length_mergeSort, List.length_map]
      decide),
    ((List.mergeSort_perm _ devLE).map DeviceStat.percentage).sum_eq]
  have hfold : (sixStats.foldl deviceStep ([], 0)).1 =
      [("a", 1), ("b", 1), ("c", 1), ("d", 1), ("e", 1), ("f", 1)] := by rfl
  have hfold2 : (sixStats.foldl deviceStep ([], 0)).2 = 6 := by rfl
  rw [hfold, hfold2]
  norm_num [devPercentage, jsRound]

theorem foldl_add_rate (crashFreeCounts : List CrashFreeRow) :
    ∀ init : ℚ,
      crashFreeCounts.foldl (fun s r => s + jsOrRate r.crash_free_rate) init =
        init + (crashFreeCounts.map fun r => jsOrRate r.crash_free_rate).sum := by
  induction crashFreeCounts with
  | nil => intro init; simp
  | cons r rest ih =>
    intro init
    simp only [List.foldl_cons, List.map_cons, List.sum_cons, ih]
    ring

/-- C5 amended: the overall `crash_free_percentage` is the arithmetic mean of
the per-day rates rounded to 2 decimal places and is 100 when the list is
empty — but each per-day rate is `crash_free_rate || 100`, so an absent rate
*and* a supplied rate of 0 are both replaced by 100 (JS falsiness); a day
with rate 0 therefore contributes 100 to the mean, not 0. -/
theorem processTrendAnalysis_crash_free_percentage
    (crashStats : List StatRow) (crashFreeCounts : List CrashFreeRow)
    (topCrashes : List CrashSummary) (timeRange : String) :
    (processTrendAnalysis crashStats crashFreeCounts topCrashes
        timeRange).crash_free_percentage =
      round2 (if crashFreeCounts.length = 0 then 100
        else (crashFreeCounts.map fun r => jsOrRate r.crash_free_rate).sum /
          (crashFreeCounts.length : ℚ)) ∧
    (processTrendAnalysis crashStats [] topCrashes
        timeRange).crash_free_percentage = 100 := by
  constructor
  · unfold processTrendAnalysis
    by_cases h : crashFreeCounts.length = 0
    · simp [h]
    · have hpos : 0 < crashFreeCounts.length := Nat.pos_of_ne_zero h
      simp only [hpos, if_true, h, if_false, foldl_add_rate, zero_add]
  · unfold processTrendAnalysis round2 jsRound
    norm_num

/-- C5 counterexample: for a single day whose supplied crash-free rate is 0,
the claim's mean is 0, but the code computes `0 || 100 = 100` for that day
and reports an overall crash-free percentage of 100. -/
theorem processTrendAnalysis_zero_rate_cex :
    (processTrendAnalysis [] [zeroRateRow] [] "7d").crash_free_percentage ≠
      round2 (specCrashFreeMean [zeroRateRow]) := by
  have h1 : (processTrendAnalysis [] [zeroRateRow] [] "7d").crash_free_percentage
      = round2 ((100 : ℚ) / 1) := by
    unfold processTrendAnalysis
    simp [zeroRateRow, jsOrRate]
  have h2 : specCrashFreeMean [zeroRateRow] = 0 / 1 := by
    unfold specCrashFreeMean
    simp [zeroRateRow]
  rw [h1, h2]
  unfold round2 jsRound
  norm_num

/-- C9: the JSON decoding in `extractCrashContext` never propagates an error:
whatever the decoders do, when the breadcrumbs text fails to decode the
breadcrumbs become the single-element list holding the raw text (the empty
list when the text is absent), and when the custom-keys text fails to decode
the custom keys become the empty mapping. -/
theorem extractCrashContext_decode_fallback
    (pList : String → Option (List String))
    (pObj : String → Option (List (String × String)))
    (row : BigQueryCrashRow) :
    (pList row.breadcrumbs = none →
      (extractCrashContext pList pObj row).breadcrumbs =
        if row.breadcrumbs = "" then [] else [row.breadcrumbs]) ∧
    (pObj row.custom_keys = none →
      (extractCrashContext pList pObj row).custom_keys = []) := by
  constructor
  · intro h
    unfold extractCrashContext
    by_cases hb : row.breadcrumbs = "" <;> simp [hb, h]
  · intro h
    unfold extractCrashContext
    by_cases hc : row.custom_keys = "" <;> simp [hc, h]

/-- C9 witness: the theorem applied to always-failing decoders and a concrete
row with non-empty breadcrumbs and custom-keys text. -/
theorem extractCrashContext_decode_fallback_w :
    (extractCrashContext (fun _ => none) (fun _ => none)
        rowBadJson).breadcrumbs = ["also not json"] ∧
    (extractCrashContext (fun _ => none) (fun _ => none)
        rowBadJson).custom_keys = [] := by
  have h := extractCrashContext_decode_fallback (fun _ => none) (fun _ => none)
    rowBadJson
  exact ⟨by rw [h.1 rfl]; rfl, h.2 rfl⟩

/-- C10: under the default baseline of 10000 total users,
`processCrashDetails` always classifies its one-off summary as `low`,
whatever the row (and in particular whatever its `is_fatal` flag), because
it classifies with one affected user and one occurrence. -/
theorem processCrashDetails_impact_low (parse : String → StackTrace)
    (pList : String → Option (List String))
    (pObj : String → Option (List (String × String)))
    (row : BigQueryCrashRow) :
    (processCrashDetails parse pList pObj 10000 row).crash_summary.impact =
      ImpactLevel.low := by
  show calculateImpactLevel 10000 1 1 row.is_fatal = ImpactLevel.low
  have hjs : jsDiv 1 10000 = .fin (1 / 10000) := by
    unfold jsDiv
    norm_num
  unfold calculateImpactLevel
  rw [hjs]
  cases row.is_fatal <;>
    simp only [JsNum.mul100, JsNum.gtQ, JsNum.geQ] <;>
    norm_num
